import Mathlib

/-!
# Verification of the pyscope observatory orchestration layer

A shallow embedding of the control-flow of `pyscope/observatory/observatory.py`.
Python methods become Lean functions over explicit state; device actions are
recorded in a command trace; a `try/except` that swallows an error keeps the
trace growing, while an uncaught Python exception is an `Except.error` value.
Real-valued quantities (angles, altitudes, temperatures) are rationals.
-/

set_option autoImplicit false

namespace PyScope

/-- Python exceptions raised by the embedded code paths.  `nameError s` models a
`NameError` on the undefined name `s`; `attributeError s` models an
`AttributeError` on the missing attribute `s`. -/
inductive PyErr where
  | observatoryException : PyErr
  | nameError : String → PyErr
  | attributeError : String → PyErr
  | typeError : String → PyErr
  | valueError : PyErr
deriving Repr, DecidableEq

/-! ## Safety monitor loop (`observatory.py` 1862-1919, 1989-1998) -/

/-- `safety_status` (observatory.py 1989-1998): builds the list of `IsSafe`
flags by appending one entry per registered safety monitor; `none` models
`self.safety_monitor is None`, in which case the list stays empty. -/
def safety_status (safety_monitor : Option (List Bool)) : List Bool :=
  match safety_monitor with
  | none => []
  | some monitors => monitors

/-- The failure callback of the safety-monitor loop: either the observatory
shutdown sequence or a user-supplied function (identified by an index). -/
inductive FailCallback where
  | shutdownSeq : FailCallback
  | custom : Nat → FailCallback
deriving Repr, DecidableEq

/-- `start_safety_monitor_thread` default resolution (observatory.py
1868-1872): when no `on_fail` is provided, `self.shutdown` is used. -/
def resolve_on_fail (on_fail : Option FailCallback) : FailCallback :=
  match on_fail with
  | none => FailCallback.shutdownSeq
  | some f => f

/-- `_update_safety_monitor` (observatory.py 1906-1919) run on a finite trace:
element `i` of the input is the `safety_status()` list the loop reads at poll
`i`.  Each iteration checks `not all(safety_array)`; on an unsafe reading it
calls `on_fail()`, stops the thread and returns.  The result is the list of
callback invocations (in order) and whether the loop is still running after the
trace is consumed. -/
def _update_safety_monitor (on_fail : FailCallback) :
    List (List Bool) → List FailCallback × Bool
  | [] => ([], true)
  | safety_array :: rest =>
      if ¬ safety_array.all id then ([on_fail], false)
      else _update_safety_monitor on_fail rest

/-! ## Shutdown sequence (`observatory.py` 1214-1333) -/

/-- The individual safing actions that `shutdown` may attempt, in source
order. -/
inductive SafingStep where
  | abortExposure
  | darkExposure
  | calibratorOff
  | haltCover
  | closeCover
  | domeAbortSlew
  | domePark
  | domeCloseShutter
  | focuserHalt
  | rotatorHalt
  | telescopeAbortSlew
  | trackingOff
  | telescopePark
  | telescopeFindHome
deriving Repr, DecidableEq

/-- The presence and capability flags `shutdown` reads to guard its steps. -/
structure ShutdownConfig where
  cameraCanAbortExposure : Bool
  coverCalibratorPresent : Bool
  /-- `CalibratorState != "NotPresent"` -/
  calibratorStatePresent : Bool
  /-- `CoverState != "NotPresent"` -/
  coverStatePresent : Bool
  domePresent : Bool
  domeCanFindPark : Bool
  domeCanSetShutter : Bool
  focuserPresent : Bool
  rotatorPresent : Bool
  telescopeCanPark : Bool
  telescopeCanFindHome : Bool
deriving Repr, DecidableEq

/-- Which attempted device actions raise.  Every such raise lands in the
surrounding bare `except`, so it is caught and logged. -/
def ShutdownFailures : Type := SafingStep → Bool

/-- A `try: <step> except: log` block: the step is attempted and its outcome
recorded; a failure is swallowed. -/
def tryStep (fails : ShutdownFailures) (s : SafingStep) : SafingStep × Bool :=
  (s, ! fails s)

/-- `shutdown` (observatory.py 1214-1333): straight-line best-effort safing.
Returns the attempted steps (with each step's success flag) in source order,
and the method's return value, which is always `True`. -/
def shutdown (cfg : ShutdownConfig) (fails : ShutdownFailures) :
    List (SafingStep × Bool) × Bool :=
  let steps :=
    (if cfg.cameraCanAbortExposure then [tryStep fails SafingStep.abortExposure] else []) ++
    [tryStep fails SafingStep.darkExposure] ++
    (if cfg.coverCalibratorPresent then
      (if cfg.calibratorStatePresent then [tryStep fails SafingStep.calibratorOff] else []) ++
      (if cfg.coverStatePresent then
        [tryStep fails SafingStep.haltCover, tryStep fails SafingStep.closeCover] else [])
     else []) ++
    (if cfg.domePresent then
      [tryStep fails SafingStep.domeAbortSlew] ++
      (if cfg.domeCanFindPark then [tryStep fails SafingStep.domePark] else []) ++
      (if cfg.domeCanSetShutter then [tryStep fails SafingStep.domeCloseShutter] else [])
     else []) ++
    (if cfg.focuserPresent then [tryStep fails SafingStep.focuserHalt] else []) ++
    (if cfg.rotatorPresent then [tryStep fails SafingStep.rotatorHalt] else []) ++
    [tryStep fails SafingStep.telescopeAbortSlew, tryStep fails SafingStep.trackingOff] ++
    (if cfg.telescopeCanPark then [tryStep fails SafingStep.telescopePark]
     else if cfg.telescopeCanFindHome then [tryStep fails SafingStep.telescopeFindHome]
     else [])
  (steps, true)

/-- The guard of each safing step, transcribed from the `if` conditions of
`shutdown` (observatory.py 1219, 1228, 1236-1246, 1264-1280, 1288, 1296, 1304,
1311, 1318, 1325). -/
def stepApplicable (cfg : ShutdownConfig) : SafingStep → Bool
  | SafingStep.abortExposure => cfg.cameraCanAbortExposure
  | SafingStep.darkExposure => true
  | SafingStep.calibratorOff => cfg.coverCalibratorPresent && cfg.calibratorStatePresent
  | SafingStep.haltCover => cfg.coverCalibratorPresent && cfg.coverStatePresent
  | SafingStep.closeCover => cfg.coverCalibratorPresent && cfg.coverStatePresent
  | SafingStep.domeAbortSlew => cfg.domePresent
  | SafingStep.domePark => cfg.domePresent && cfg.domeCanFindPark
  | SafingStep.domeCloseShutter => cfg.domePresent && cfg.domeCanSetShutter
  | SafingStep.focuserHalt => cfg.focuserPresent
  | SafingStep.rotatorHalt => cfg.rotatorPresent
  | SafingStep.telescopeAbortSlew => true
  | SafingStep.trackingOff => true
  | SafingStep.telescopePark => cfg.telescopeCanPark
  | SafingStep.telescopeFindHome => !cfg.telescopeCanPark && cfg.telescopeCanFindHome

/-! ## Coordinated slew (`observatory.py` 1685-1818) -/

/-- Device commands issued to the mount, dome, rotator and camera.  Only
state-changing calls are traced; pure reads of flags are not. -/
inductive Command where
  | Unpark
  | FindHome
  | SlewToCoordinatesAsync (ra dec : ℚ)
  | SlewToCoordinatesSync (ra dec : ℚ)
  | SlewToAltAzAsync (alt az : ℚ)
  | SlewToAltAzSync (alt az : ℚ)
  | OpenShutter
  | DomeFindHome
  | DomeSlewToAltitude (alt : ℚ)
  | DomeSlewToAzimuth (az : ℚ)
  | RotatorMoveAbsolute (angle : ℚ)
  | SetTrackingRate (rate : ℚ)
  | SetTracking (enabled : Bool)
  | SetReadoutMode (mode : Nat)
  | StartExposure (dur : ℚ) (light : Bool)
  | SetCCDTemperature (t : ℚ)
  | SyncToCoordinates (ra dec : ℚ)
deriving Repr, DecidableEq

/-- The camera capability flag read by the `cooler_setpoint` setter. -/
structure CameraDev where
  CanSetCCDTemperature : Bool
deriving Repr, DecidableEq

/-- The observatory fields touched by the `latitude`, `elevation` and
`cooler_setpoint` setters.  Private fields mirror the `_latitude`,
`_elevation`, `_cooler_setpoint` attributes; the `config_*` fields model the
corresponding `self._config` entries (the source stores each as the decimal
string rendering of the value, `""` for `None`; we record the value itself). -/
structure SiteState where
  _latitude : Option ℚ
  _elevation : Option ℚ
  _cooler_setpoint : Option ℚ
  config_site_latitude : Option ℚ
  config_site_elevation : Option ℚ
  config_camera_cooler_setpoint : Option ℚ
  camera : CameraDev
deriving Repr, DecidableEq

/-- `astropy.coordinates.Latitude` construction (external): accepts angles in
[-90, 90] degrees and raises `ValueError` otherwise. -/
def Latitude (value : ℚ) : Except PyErr ℚ :=
  if value < -90 ∨ 90 < value then Except.error PyErr.valueError
  else Except.ok value

/-- The `latitude` setter (observatory.py 3853-3870) on a numeric input:
`self._latitude = coord.Latitude(value)`, then the `site.latitude` config
entry is set to the rendering of the stored value.  A `ValueError` from
`Latitude` prevents the assignment, leaving the state unchanged. -/
def latitude_set (st : SiteState) (value : ℚ) : SiteState × Except PyErr Unit :=
  match Latitude value with
  | Except.error e => (st, Except.error e)
  | Except.ok lat =>
    ({ st with _latitude := some lat, config_site_latitude := some lat },
     Except.ok ())

/-- The `elevation` setter (observatory.py 3901-3909) on a numeric input:
`self._elevation = max(float(value), 0)`, then the `site.elevation` config
entry is set to the rendering of the stored value. -/
def elevation_set (st : SiteState) (value : ℚ) : SiteState × Except PyErr Unit :=
  let elev := max value 0
  ({ st with _elevation := some elev, config_site_elevation := some elev },
   Except.ok ())

/-- The `cooler_setpoint` setter (observatory.py 3961-3975) on a numeric
input: `self._cooler_setpoint = max(float(value), -273.15)`, then the
`camera.cooler_setpoint` config entry is set to the rendering of the stored
value; finally, if the camera supports CCD temperature control the setpoint is
pushed to the camera, and otherwise an `ObservatoryException` is raised —
after the field and the config mirror were already updated. -/
def cooler_setpoint_set (st : SiteState) (value : ℚ) :
    SiteState × List Command × Except PyErr Unit :=
  let sp := max value (-(273.15 : ℚ))
  let st' := { st with
    _cooler_setpoint := some sp
    config_camera_cooler_setpoint := some sp }
  if st.camera.CanSetCCDTemperature then
    (st', [Command.SetCCDTemperature sp], Except.ok ())
  else
    (st', [], Except.error PyErr.observatoryException)

/-! ## Background-loop thread management (`observatory.py` 1045-1053,
1820-1958) -/

/-- The thread-handle attributes of `Observatory` and bookkeeping for worker
creation.  Each `Option (Option Nat)` field models a private attribute:
`none` = attribute missing (never assigned), `some none` = set to Python
`None`, `some (some i)` = holding a live object with identity `i`.
`workersStarted` counts every `threading.Thread(...).start()` call. -/
structure ThreadState where
  _observing_conditions_event : Option (Option Nat)
  _observing_conditions_thread : Option (Option Nat)
  _safety_monitor_event : Option (Option Nat)
  _safety_monitor_thread : Option (Option Nat)
  _derotation_event : Option (Option Nat)
  _derotation_thread : Option (Option Nat)
  nextId : Nat
  workersStarted : Nat
deriving Repr, DecidableEq

/-- The thread attributes after `__init__` (observatory.py 1045-1053): the
observing-conditions and safety-monitor private attributes are set to `None`;
for the derotation loop only `self.derotation_thread` and
`self.derotation_event` — without the leading underscore — are assigned, so
the private `_derotation_event` / `_derotation_thread` attributes read by
`stop_derotation_thread` are missing. -/
def threadStateAfterInit : ThreadState :=
  { _observing_conditions_event := some none
    _observing_conditions_thread := some none
    _safety_monitor_event := some none
    _safety_monitor_thread := some none
    _derotation_event := none
    _derotation_thread := none
    nextId := 0
    workersStarted := 0 }

/-- `start_observing_conditions_thread` (observatory.py 1820-1837): raises if
no observing-conditions device is present; otherwise unconditionally creates a
fresh `Event` and a fresh worker thread — there is no check of whether the
loop is already running — overwriting the stored handles, and returns `True`. -/
def start_observing_conditions_thread (present : Bool) (st : ThreadState) :
    ThreadState × Except PyErr Bool :=
  if ¬ present then (st, Except.error PyErr.observatoryException)
  else
    ({ st with
        _observing_conditions_event := some (some st.nextId)
        _observing_conditions_thread := some (some (st.nextId + 1))
        nextId := st.nextId + 2
        workersStarted := st.workersStarted + 1 },
     Except.ok true)

/-- `stop_observing_conditions_thread` (observatory.py 1839-1853): reads
`self._observing_conditions_event`; if it is `None`, warns and returns
`False`; otherwise signals, joins, clears both handles to `None` and returns
`True`. -/
def stop_observing_conditions_thread (st : ThreadState) :
    ThreadState × Except PyErr Bool :=
  match st._observing_conditions_event with
  | none => (st, Except.error (PyErr.attributeError "_observing_conditions_event"))
  | some none => (st, Except.ok false)
  | some (some _) =>
    ({ st with
        _observing_conditions_event := some none
        _observing_conditions_thread := some none },
     Except.ok true)

/-- `start_safety_monitor_thread` (observatory.py 1862-1888): same shape as
`start_observing_conditions_thread` — no already-running check. -/
def start_safety_monitor_thread (present : Bool) (st : ThreadState) :
    ThreadState × Except PyErr Bool :=
  if ¬ present then (st, Except.error PyErr.observatoryException)
  else
    ({ st with
        _safety_monitor_event := some (some st.nextId)
        _safety_monitor_thread := some (some (st.nextId + 1))
        nextId := st.nextId + 2
        workersStarted := st.workersStarted + 1 },
     Except.ok true)

/-- `stop_safety_monitor_thread` (observatory.py 1890-1904). -/
def stop_safety_monitor_thread (st : ThreadState) :
    ThreadState × Except PyErr Bool :=
  match st._safety_monitor_event with
  | none => (st, Except.error (PyErr.attributeError "_safety_monitor_event"))
  | some none => (st, Except.ok false)
  | some (some _) =>
    ({ st with
        _safety_monitor_event := some none
        _safety_monitor_thread := some none },
     Except.ok true)

/-- `start_derotation_thread` (observatory.py 1921-1942): raises if no
rotator is present (1924-1925); otherwise lines 1927-1928 evaluate
`coord.AltAz(obstime=Time.now(), location=self.location)` — the name `Time`
is never imported (the module imports `astropy.time` as `astrotime`), so
`Time.now()` raises `NameError` (and `self.location` does not exist either,
only `observatory_location`) before the event and thread assignments at
1932-1939.  So with a rotator present the call raises without assigning the
underscored handles or creating any worker. -/
def start_derotation_thread (present : Bool) (st : ThreadState) :
    ThreadState × Except PyErr Bool :=
  if ¬ present then (st, Except.error PyErr.observatoryException)
  else (st, Except.error (PyErr.nameError "Time"))

/-- `stop_derotation_thread` (observatory.py 1944-1958): reads
`self._derotation_event`, which on a fresh `Observatory` was never assigned
(see `threadStateAfterInit`), making the read an `AttributeError`. -/
def stop_derotation_thread (st : ThreadState) : ThreadState × Except PyErr Bool :=
  match st._derotation_event with
  | none => (st, Except.error (PyErr.attributeError "_derotation_event"))
  | some none => (st, Except.ok false)
  | some (some _) =>
    ({ st with
        _derotation_event := some none
        _derotation_thread := some none },
     Except.ok true)

/-! ## Theorems -/

/-- C1: in every run of the safety-monitor loop in which some polled iteration
observes at least one monitor reporting unsafe, the loop invokes the `on_fail`
callback (defaulting to the observatory shutdown sequence) exactly once and
the loop is no longer running afterward. -/
theorem safety_monitor_unsafe_triggers_on_fail_once
    (on_fail : Option FailCallback) (trace : List (List Bool))
    (h : ∃ r ∈ trace, ¬ r.all id) :
    _update_safety_monitor (resolve_on_fail on_fail) trace =
      ([resolve_on_fail on_fail], false) ∧
    resolve_on_fail none = FailCallback.shutdownSeq := by
  refine ⟨?_, rfl⟩
  induction trace with
  | nil => simp at h
  | cons r rest ih =>
    rcases h with ⟨x, hx, hxs⟩
    rw [_update_safety_monitor]
    by_cases hr : r.all id = true
    · rw [if_neg (by simpa using hr)]
      refine ih ⟨x, ?_, hxs⟩
      rcases List.mem_cons.mp hx with h1 | h1
      · exact absurd (h1 ▸ hr) hxs
      · exact h1
    · rw [if_pos (by simpa using hr)]

/-- C1 witness: the monitor sequence [safe, safe, unsafe] with the default
callback triggers the shutdown sequence exactly once and stops the loop. -/
theorem safety_monitor_unsafe_triggers_on_fail_once_witness :
    _update_safety_monitor (resolve_on_fail none) [[true, true, false]] =
      ([FailCallback.shutdownSeq], false) :=
  (safety_monitor_unsafe_triggers_on_fail_once none [[true, true, false]]
    (by decide)).1

/-- C9: with an empty registered safety-monitor list, every polled iteration
reads an empty status list, which is treated as safe, so for every number of
iterations the loop never invokes `on_fail` and keeps running. -/
theorem safety_monitor_empty_list_never_fails (on_fail : FailCallback) (n : Nat) :
    _update_safety_monitor on_fail (List.replicate n (safety_status (some []))) =
      ([], true) := by
  induction n with
  | zero => rfl
  | succ k ih =>
    rw [List.replicate_succ, _update_safety_monitor]
    simpa [safety_status] using ih

/--`shutdown`'s attempted-step list, projected to the steps themselves, does
not depend on which steps fail: every raise is swallowed by its own
`try`/`except`. -/
theorem shutdown_steps_indep_of_failures
    (cfg : ShutdownConfig) (fails : ShutdownFailures) :
    (shutdown cfg fails).1.map Prod.fst =
      (shutdown cfg (fun _ => false)).1.map Prod.fst := by
  simp [shutdown, tryStep, apply_ite (List.map Prod.fst)]

/-- Membership in a conditionally-present list segment. -/
theorem mem_ite_nil {α : Type} (p : Prop) [Decidable p] (a : α) (l : List α) :
    a ∈ (if p then l else []) ↔ p ∧ a ∈ l := by
  split <;> simp [*]

/-- With no failures, the attempted steps are exactly the applicable ones. -/
theorem mem_shutdown_steps_iff_applicable
    (cfg : ShutdownConfig) (s : SafingStep) :
    s ∈ (shutdown cfg (fun _ => false)).1.map Prod.fst ↔
      stepApplicable cfg s = true := by
  obtain ⟨b1, b2, b3, b4, b5, b6, b7, b8, b9, b10, b11⟩ := cfg
  cases b10 <;> cases s <;>
    simp [shutdown, tryStep, stepApplicable, mem_ite_nil, List.mem_append,
      Bool.and_eq_true, and_comm]

/-- C2: for every device configuration and every combination of individual
step failures, `shutdown` attempts exactly the applicable safing steps — the
failure of any one step never prevents the remaining steps from being
attempted — and returns `True`. -/
theorem shutdown_attempts_every_applicable_step
    (cfg : ShutdownConfig) (fails : ShutdownFailures) :
    (shutdown cfg fails).2 = true ∧
    ∀ s : SafingStep,
      s ∈ (shutdown cfg fails).1.map Prod.fst ↔ stepApplicable cfg s = true := by
  refine ⟨rfl, fun s => ?_⟩
  rw [shutdown_steps_indep_of_failures]
  exact mem_shutdown_steps_iff_applicable cfg s

/-- C2 witness: with every device present and capable and every step failing,
the dome is still parked, the shutter closed, and the mount parked. -/
theorem shutdown_attempts_every_applicable_step_witness :
    (shutdown ⟨true, true, true, true, true, true, true, true, true, true, true⟩
        (fun _ => true)).2 = true ∧
    SafingStep.domePark ∈
      (shutdown ⟨true, true, true, true, true, true, true, true, true, true, true⟩
        (fun _ => true)).1.map Prod.fst :=
  ⟨(shutdown_attempts_every_applicable_step
      ⟨true, true, true, true, true, true, true, true, true, true, true⟩
      (fun _ => true)).1,
   ((shutdown_attempts_every_applicable_step
      ⟨true, true, true, true, true, true, true, true, true, true, true⟩
      (fun _ => true)).2 SafingStep.domePark).mpr (by decide)⟩

/-- C7: for every state and every numeric input, after the `cooler_setpoint`
setter runs, the stored setpoint is the input clamped to the absolute-zero
floor, hence never below -273.15. -/
theorem cooler_setpoint_clamped_to_absolute_zero (st : SiteState) (value : ℚ) :
    ((cooler_setpoint_set st value).1)._cooler_setpoint
      = some (max value (-(273.15 : ℚ))) ∧
    -(273.15 : ℚ) ≤ max value (-(273.15 : ℚ)) := by
  refine ⟨?_, le_max_right _ _⟩
  cases h : st.camera.CanSetCCDTemperature <;> simp [cooler_setpoint_set, h]

/-- C10: when the camera does not support CCD temperature control, the
`cooler_setpoint` setter raises `ObservatoryException`, but only after the
internal setpoint field and the configuration mirror have been updated to the
new clamped value; the mutation is not rolled back. -/
theorem cooler_setpoint_raises_after_mutation (st : SiteState) (value : ℚ)
    (h : st.camera.CanSetCCDTemperature = false) :
    (cooler_setpoint_set st value).2.2
        = Except.error PyErr.observatoryException ∧
    ((cooler_setpoint_set st value).1)._cooler_setpoint
        = some (max value (-(273.15 : ℚ))) ∧
    ((cooler_setpoint_set st value).1).config_camera_cooler_setpoint
        = some (max value (-(273.15 : ℚ))) := by
  simp [cooler_setpoint_set, h]

/-- C10 witness: a camera without CCD temperature control and an input of
-300 °C: the setter raises, yet the field and mirror hold the clamped value. -/
theorem cooler_setpoint_raises_after_mutation_witness :
    (cooler_setpoint_set ⟨none, none, none, none, none, none, ⟨false⟩⟩ (-300)).2.2
        = Except.error PyErr.observatoryException ∧
    ((cooler_setpoint_set ⟨none, none, none, none, none, none, ⟨false⟩⟩
        (-300)).1)._cooler_setpoint = some (max (-300) (-(273.15 : ℚ))) ∧
    ((cooler_setpoint_set ⟨none, none, none, none, none, none, ⟨false⟩⟩
        (-300)).1).config_camera_cooler_setpoint
        = some (max (-300) (-(273.15 : ℚ))) :=
  cooler_setpoint_raises_after_mutation
    ⟨none, none, none, none, none, none, ⟨false⟩⟩ (-300) rfl

/-- C8: each physical-bound setter validates or clamps to its physical domain
before acceptance (latitude to [-90°, 90°] by rejection, elevation to ≥ 0 and
cooler setpoint to ≥ -273.15 by clamping), and after every such mutation the
corresponding configuration-mirror entry equals the newly stored value. -/
theorem physical_setters_validate_and_mirror (st : SiteState) (value : ℚ) :
    (¬ (value < -90 ∨ 90 < value) →
      ((latitude_set st value).1)._latitude = some value ∧
      -90 ≤ value ∧ value ≤ 90 ∧
      ((latitude_set st value).1).config_site_latitude
        = ((latitude_set st value).1)._latitude) ∧
    ((value < -90 ∨ 90 < value) →
      latitude_set st value = (st, Except.error PyErr.valueError)) ∧
    (((elevation_set st value).1)._elevation = some (max value 0) ∧
      (0 : ℚ) ≤ max value 0 ∧
      ((elevation_set st value).1).config_site_elevation
        = ((elevation_set st value).1)._elevation) ∧
    (((cooler_setpoint_set st value).1)._cooler_setpoint
        = some (max value (-(273.15 : ℚ))) ∧
      -(273.15 : ℚ) ≤ max value (-(273.15 : ℚ)) ∧
      ((cooler_setpoint_set st value).1).config_camera_cooler_setpoint
        = ((cooler_setpoint_set st value).1)._cooler_setpoint) := by
  refine ⟨fun h => ?_, fun h => ?_, ⟨?_, le_max_right _ _, ?_⟩, ?_⟩
  · have hL : Latitude value = Except.ok value := by
      rw [Latitude, if_neg h]
    push_neg at h
    refine ⟨?_, h.1, h.2, ?_⟩ <;> simp [latitude_set, hL]
  · have hL : Latitude value = Except.error PyErr.valueError := by
      rw [Latitude, if_pos h]
    simp [latitude_set, hL]
  · simp [elevation_set]
  · simp [elevation_set]
  · refine ⟨(cooler_setpoint_clamped_to_absolute_zero st value).1,
      le_max_right _ _, ?_⟩
    cases h : st.camera.CanSetCCDTemperature <;> simp [cooler_setpoint_set, h]

/-- C8 witness: at latitude 45°, elevation 45 m, setpoint 45 °C on a camera
with temperature control, each field is stored and mirrored. -/
theorem physical_setters_validate_and_mirror_witness :
    ((latitude_set ⟨none, none, none, none, none, none, ⟨true⟩⟩ 45).1)._latitude
        = some 45 ∧
    ((elevation_set ⟨none, none, none, none, none, none, ⟨true⟩⟩ 45).1)._elevation
        = some (max 45 0) ∧
    ((cooler_setpoint_set ⟨none, none, none, none, none, none, ⟨true⟩⟩
        45).1).config_camera_cooler_setpoint
        = ((cooler_setpoint_set ⟨none, none, none, none, none, none, ⟨true⟩⟩
            45).1)._cooler_setpoint :=
  ⟨((physical_setters_validate_and_mirror
      ⟨none, none, none, none, none, none, ⟨true⟩⟩ 45).1 (by norm_num)).1,
   (physical_setters_validate_and_mirror
      ⟨none, none, none, none, none, none, ⟨true⟩⟩ 45).2.2.1.1,
   (physical_setters_validate_and_mirror
      ⟨none, none, none, none, none, none, ⟨true⟩⟩ 45).2.2.2.2.2⟩

/-- C4 counterexample: on a fresh observatory with the observing-conditions
loop already running, a second `start_observing_conditions_thread` call
creates a second worker (the claim says it is a no-op that creates none); and
`stop_derotation_thread` on a fresh observatory raises `AttributeError`
because `__init__` assigned `derotation_event`, not `_derotation_event` (the
claim says stopping a non-running loop is a non-fatal no-op). -/
theorem loop_start_stop_counterexample :
    ((start_observing_conditions_thread true
        (start_observing_conditions_thread true
          threadStateAfterInit).1).1).workersStarted = 2 ∧
    stop_derotation_thread threadStateAfterInit =
      (threadStateAfterInit,
        Except.error (PyErr.attributeError "_derotation_event")) := by
  exact ⟨rfl, rfl⟩

/-- C4 (amended): stopping the observing-conditions or safety-monitor loop
while its event handle is `None` is a non-fatal no-op returning `False`;
stopping the derotation loop raises `AttributeError`, since its private
handle attribute is never assigned — `__init__` sets only the non-underscored
names, and `start_derotation_thread` raises `NameError` on the unimported
name `Time` (observatory.py 1927-1928) before assigning any handle or
creating any worker; and the observing-conditions and safety-monitor start
methods never check whether their loop is already running — every such start
call with the device present creates a fresh cancellation event and a new
worker, replacing the stored handles, so a second start while the loop runs
creates a second worker. -/
theorem loop_start_stop_amended (st : ThreadState) (present : Bool) :
    (st._observing_conditions_event = some none →
      stop_observing_conditions_thread st = (st, Except.ok false)) ∧
    (st._safety_monitor_event = some none →
      stop_safety_monitor_thread st = (st, Except.ok false)) ∧
    (st._derotation_event = none →
      stop_derotation_thread st =
        (st, Except.error (PyErr.attributeError "_derotation_event"))) ∧
    start_derotation_thread true st = (st, Except.error (PyErr.nameError "Time")) ∧
    (present = true →
      ((start_observing_conditions_thread present st).1).workersStarted
          = st.workersStarted + 1 ∧
      ((start_safety_monitor_thread present st).1).workersStarted
          = st.workersStarted + 1) := by
  refine ⟨fun h => ?_, fun h => ?_, fun h => ?_, ?_, fun h => ?_⟩
  · simp [stop_observing_conditions_thread, h]
  · simp [stop_safety_monitor_thread, h]
  · simp [stop_derotation_thread, h]
  · simp [start_derotation_thread]
  · subst h
    exact ⟨rfl, rfl⟩

/-- C4 witness: on a fresh observatory, stopping the observing-conditions loop
is a no-op returning `False`, stopping the derotation loop raises
`AttributeError`, starting the derotation loop raises `NameError` without
creating a worker, and starting the observing-conditions loop creates one
worker. -/
theorem loop_start_stop_amended_witness :
    stop_observing_conditions_thread threadStateAfterInit
        = (threadStateAfterInit, Except.ok false) ∧
    stop_derotation_thread threadStateAfterInit
        = (threadStateAfterInit,
            Except.error (PyErr.attributeError "_derotation_event")) ∧
    start_derotation_thread true threadStateAfterInit
        = (threadStateAfterInit, Except.error (PyErr.nameError "Time")) ∧
    ((start_observing_conditions_thread true threadStateAfterInit).1).workersStarted
        = threadStateAfterInit.workersStarted + 1 :=
  ⟨(loop_start_stop_amended threadStateAfterInit true).1 rfl,
   (loop_start_stop_amended threadStateAfterInit true).2.2.1 rfl,
   (loop_start_stop_amended threadStateAfterInit true).2.2.2.1,
   ((loop_start_stop_amended threadStateAfterInit true).2.2.2.2 rfl).1⟩

end PyScope
